import Mathlib

/-!
Verification development for the Hulu playlist client
(`pyhulu/client.py` and the driver `hulu.py`).

Bytes are modelled as `Nat` values below 256, byte strings as `List Nat`.
Machine 32-bit arithmetic is modelled with explicit reduction modulo
2^32.  Fallible operations return `Option` or `Except`.  The Python
`ValueError`-based failure taxonomy of the spec is modelled by the
inductive `ClientError` below, together with the exact message strings
the code raises.
-/

set_option maxRecDepth 100000

namespace HuluSpec

/-- Reduction modulo 2^32, modelling 32-bit machine words. -/
def u32 (x : Nat) : Nat := x % 4294967296

/-- Left rotation of a 32-bit word by `n` places. -/
def rotl32 (x n : Nat) : Nat :=
  u32 ((x <<< n) ||| (x >>> (32 - n)))

/-- Little-endian serialisation of `x` into `n` bytes. -/
def toLEBytes : Nat → Nat → List Nat
  | 0, _ => []
  | n + 1, x => (x % 256) :: toLEBytes n (x / 256)

/-- Little-endian deserialisation of a byte list into one word. -/
def fromLEBytes : List Nat → Nat
  | [] => 0
  | b :: bs => b + 256 * fromLEBytes bs

/-- Accumulator loop for `chunksOf`: `fuel` counts the free slots left
in the current chunk `acc` (held reversed). -/
def chunkAux (size : Nat) : Nat → List Nat → List Nat → List (List Nat)
  | _, acc, [] => if acc.isEmpty then [] else [acc.reverse]
  | fuel, acc, x :: xs =>
    if fuel ≤ 1 then (x :: acc).reverse :: chunkAux size size [] xs
    else chunkAux size (fuel - 1) (x :: acc) xs

/-- Splits a list into consecutive chunks of `size` elements. -/
def chunksOf (size : Nat) (l : List Nat) : List (List Nat) :=
  chunkAux size size [] l

/-- The 64 MD5 round constants, floor(abs(sin(i + 1)) * 2^32). -/
def md5K : List Nat :=
  [3614090360, 3905402710, 606105819, 3250441966, 4118548399, 1200080426,
   2821735955, 4249261313, 1770035416, 2336552879, 4294925233, 2304563134,
   1804603682, 4254626195, 2792965006, 1236535329, 4129170786, 3225465664,
   643717713, 3921069994, 3593408605, 38016083, 3634488961, 3889429448,
   568446438, 3275163606, 4107603335, 1163531501, 2850285829, 4243563512,
   1735328473, 2368359562, 4294588738, 2272392833, 1839030562, 4259657740,
   2763975236, 1272893353, 4139469664, 3200236656, 681279174, 3936430074,
   3572445317, 76029189, 3654602809, 3873151461, 530742520, 3299628645,
   4096336452, 1126891415, 2878612391, 4237533241, 1700485571, 2399980690,
   4293915773, 2240044497, 1873313359, 4264355552, 2734768916, 1309151649,
   4149444226, 3174756917, 718787259, 3951481745]

/-- The 64 MD5 per-round left-rotation amounts. -/
def md5S : List Nat :=
  [7, 12, 17, 22, 7, 12, 17, 22, 7, 12, 17, 22, 7, 12, 17, 22,
   5, 9, 14, 20, 5, 9, 14, 20, 5, 9, 14, 20, 5, 9, 14, 20,
   4, 11, 16, 23, 4, 11, 16, 23, 4, 11, 16, 23, 4, 11, 16, 23,
   6, 10, 15, 21, 6, 10, 15, 21, 6, 10, 15, 21, 6, 10, 15, 21]

/-- The MD5 round function F, G, H or I depending on the round index. -/
def md5F (i b c d : Nat) : Nat :=
  if i < 16 then (b &&& c) ||| ((b ^^^ 4294967295) &&& d)
  else if i < 32 then (d &&& b) ||| ((d ^^^ 4294967295) &&& c)
  else if i < 48 then b ^^^ c ^^^ d
  else c ^^^ (b ||| (d ^^^ 4294967295))

/-- The MD5 message-word index schedule. -/
def md5G (i : Nat) : Nat :=
  if i < 16 then i
  else if i < 32 then (5 * i + 1) % 16
  else if i < 48 then (3 * i + 5) % 16
  else (7 * i) % 16

/-- One MD5 round over the state (a, b, c, d) using message words `M`. -/
def md5Round (M : List Nat) (st : Nat × Nat × Nat × Nat) (i : Nat) :
    Nat × Nat × Nat × Nat :=
  let a := st.1
  let b := st.2.1
  let c := st.2.2.1
  let d := st.2.2.2
  let f := u32 (md5F i b c d + a + md5K.getD i 0 + M.getD (md5G i) 0)
  (d, u32 (b + rotl32 f (md5S.getD i 0)), b, c)

/-- Processes one 64-byte MD5 block, updating the running state. -/
def md5Block (st : Nat × Nat × Nat × Nat) (block : List Nat) :
    Nat × Nat × Nat × Nat :=
  let M := (chunksOf 4 block).map fromLEBytes
  let r := (List.range 64).foldl (md5Round M) st
  (u32 (st.1 + r.1), u32 (st.2.1 + r.2.1), u32 (st.2.2.1 + r.2.2.1),
   u32 (st.2.2.2 + r.2.2.2))

/-- MD5 padding: append 0x80, zero bytes to 56 mod 64, then the 64-bit
little-endian bit length. -/
def md5Pad (msg : List Nat) : List Nat :=
  let padLen := (119 - (msg.length % 64)) % 64
  msg ++ [128] ++ List.replicate padLen 0 ++ toLEBytes 8 (msg.length * 8)

/-- The 16-byte MD5 digest of a byte string. -/
def md5Digest (msg : List Nat) : List Nat :=
  let st := (chunksOf 64 (md5Pad msg)).foldl md5Block
    (1732584193, 4023233417, 2562383102, 271733878)
  toLEBytes 4 st.1 ++ toLEBytes 4 st.2.1 ++ toLEBytes 4 st.2.2.1 ++
    toLEBytes 4 st.2.2.2

/-- The lowercase hexadecimal digit character for a value below 16
(codepoint arithmetic over the digit and letter ranges). -/
def hexDigitChar (n : Nat) : Char :=
  if n < 10 then Char.ofNat (48 + n) else Char.ofNat (87 + n)

/-- Lowercase hexadecimal rendering of one byte (two digits). -/
def byteToHex (b : Nat) : List Char :=
  [hexDigitChar (b / 16), hexDigitChar (b % 16)]

/-- Lowercase hexadecimal rendering of a byte string, modelling Python
`binascii.hexlify(...)` decoded as text. -/
def hexlify (bs : List Nat) : String :=
  ⟨bs.flatMap byteToHex⟩

/-- Lowercase hexadecimal MD5 digest of a byte string, modelling Python
`hashlib.md5(msg).hexdigest()`. -/
def md5HexDigest (msg : List Nat) : String :=
  hexlify (md5Digest msg)

/-- UTF-8 encoding of a single character as bytes. -/
def utf8Char (c : Char) : List Nat :=
  let n := c.toNat
  if n < 128 then [n]
  else if n < 2048 then [192 + n / 64, 128 + n % 64]
  else if n < 65536 then
    [224 + n / 4096, 128 + n / 64 % 64, 128 + n % 64]
  else
    [240 + n / 262144, 128 + n / 4096 % 64, 128 + n / 64 % 64, 128 + n % 64]

/-- UTF-8 encoding of a string as bytes, modelling Python
`str.encode of utf8`. -/
def utf8Encode (s : String) : List Nat :=
  s.data.flatMap utf8Char

/-- The handshake base string of `get_session_key` (client.py lines
302 to 307): hex of the device key, the device code, the fixed version
string "1" and the random value, comma separated. -/
def handshakeBase (deviceKey : List Nat) (deviceCode : String)
    (randomValue : Nat) : String :=
  let version := "1"
  hexlify deviceKey ++ "," ++ deviceCode ++ "," ++ version ++ "," ++
    Nat.repr randomValue

/-- The handshake nonce of `get_session_key` (client.py line 309):
MD5 hex digest of the UTF-8 encoded base string. -/
def handshakeNonce (deviceKey : List Nat) (deviceCode : String)
    (randomValue : Nat) : String :=
  md5HexDigest (utf8Encode (handshakeBase deviceKey deviceCode randomValue))

/-- The AES forward S-box. -/
def sbox : List Nat :=
  [99, 124, 119, 123, 242, 107, 111, 197, 48, 1, 103, 43, 254, 215, 171, 118,
   202, 130, 201, 125, 250, 89, 71, 240, 173, 212, 162, 175, 156, 164, 114,
   192, 183, 253, 147, 38, 54, 63, 247, 204, 52, 165, 229, 241, 113, 216, 49,
   21, 4, 199, 35, 195, 24, 150, 5, 154, 7, 18, 128, 226, 235, 39, 178, 117,
   9, 131, 44, 26, 27, 110, 90, 160, 82, 59, 214, 179, 41, 227, 47, 132, 83,
   209, 0, 237, 32, 252, 177, 91, 106, 203, 190, 57, 74, 76, 88, 207, 208,
   239, 170, 251, 67, 77, 51, 133, 69, 249, 2, 127, 80, 60, 159, 168, 81,
   163, 64, 143, 146, 157, 56, 245, 188, 182, 218, 33, 16, 255, 243, 210,
   205, 12, 19, 236, 95, 151, 68, 23, 196, 167, 126, 61, 100, 93, 25, 115,
   96, 129, 79, 220, 34, 42, 144, 136, 70, 238, 184, 20, 222, 94, 11, 219,
   224, 50, 58, 10, 73, 6, 36, 92, 194, 211, 172, 98, 145, 149, 228, 121,
   231, 200, 55, 109, 141, 213, 78, 169, 108, 86, 244, 234, 101, 122, 174, 8,
   186, 120, 37, 46, 28, 166, 180, 198, 232, 221, 116, 31, 75, 189, 139, 138,
   112, 62, 181, 102, 72, 3, 246, 14, 97, 53, 87, 185, 134, 193, 29, 158,
   225, 248, 152, 17, 105, 217, 142, 148, 155, 30, 135, 233, 206, 85, 40,
   223, 140, 161, 137, 13, 191, 230, 66, 104, 65, 153, 45, 15, 176, 84, 187,
   22]

/-- The AES inverse S-box. -/
def invSbox : List Nat :=
  [82, 9, 106, 213, 48, 54, 165, 56, 191, 64, 163, 158, 129, 243, 215, 251,
   124, 227, 57, 130, 155, 47, 255, 135, 52, 142, 67, 68, 196, 222, 233, 203,
   84, 123, 148, 50, 166, 194, 35, 61, 238, 76, 149, 11, 66, 250, 195, 78,
   8, 46, 161, 102, 40, 217, 36, 178, 118, 91, 162, 73, 109, 139, 209, 37,
   114, 248, 246, 100, 134, 104, 152, 22, 212, 164, 92, 204, 93, 101, 182,
   146, 108, 112, 72, 80, 253, 237, 185, 218, 94, 21, 70, 87, 167, 141, 157,
   132, 144, 216, 171, 0, 140, 188, 211, 10, 247, 228, 88, 5, 184, 179, 69,
   6, 208, 44, 30, 143, 202, 63, 15, 2, 193, 175, 189, 3, 1, 19, 138, 107,
   58, 145, 17, 65, 79, 103, 220, 234, 151, 242, 207, 206, 240, 180, 230,
   115, 150, 172, 116, 34, 231, 173, 53, 133, 226, 249, 55, 232, 28, 117,
   223, 110, 71, 241, 26, 113, 29, 41, 197, 137, 111, 183, 98, 14, 170, 24,
   190, 27, 252, 86, 62, 75, 198, 210, 121, 32, 154, 219, 192, 254, 120,
   205, 90, 244, 31, 221, 168, 51, 136, 7, 199, 49, 177, 18, 16, 89, 39,
   128, 236, 95, 96, 81, 127, 169, 25, 181, 74, 13, 45, 229, 122, 159, 147,
   201, 156, 239, 160, 224, 59, 77, 174, 42, 245, 176, 200, 235, 187, 60,
   131, 83, 153, 97, 23, 43, 4, 126, 186, 119, 214, 38, 225, 105, 20, 99,
   85, 33, 12, 125]

/-- Multiplication by x in GF(2^8) with the AES polynomial. -/
def xtime (a : Nat) : Nat :=
  if a < 128 then a * 2 else ((a * 2) ^^^ 27) % 256

/-- Russian-peasant loop for GF(2^8) multiplication, `n` bits of `b`. -/
def gmulAux : Nat → Nat → Nat → Nat
  | 0, _, _ => 0
  | n + 1, a, b =>
    (if b % 2 == 1 then a else 0) ^^^ gmulAux n (xtime a) (b / 2)

/-- GF(2^8) multiplication with the AES polynomial. -/
def gmul (a b : Nat) : Nat := gmulAux 8 a b

/-- XOR of two byte strings, pairwise per index (truncating to the
shorter operand like Python `zip`). -/
def xorBytes (a b : List Nat) : List Nat :=
  List.zipWith (fun x y => x ^^^ y) a b

/-- The AES key-schedule round constants. -/
def aesRcon : List Nat := [1, 2, 4, 8, 16, 32, 64, 128, 27, 54]

/-- S-box substitution of each byte of a key-schedule word. -/
def subWord (w : List Nat) : List Nat := w.map (fun b => sbox.getD b 0)

/-- Rotation of a key-schedule word by one byte. -/
def rotWord (w : List Nat) : List Nat := w.drop 1 ++ w.take 1

/-- Appends key-schedule word number `i` (for `4 ≤ i`). -/
def nextWord (ws : List (List Nat)) (i : Nat) : List (List Nat) :=
  let prev := ws.getD (i - 1) []
  let t :=
    if i % 4 == 0 then
      xorBytes (subWord (rotWord prev)) [aesRcon.getD (i / 4 - 1) 0, 0, 0, 0]
    else prev
  ws ++ [xorBytes (ws.getD (i - 4) []) t]

/-- The 44 words of the AES-128 key schedule. -/
def keySchedule (key : List Nat) : List (List Nat) :=
  (List.range 40).foldl (fun ws j => nextWord ws (j + 4)) (chunksOf 4 key)

/-- Round key `r` as 16 bytes in column-major order. -/
def roundKey (ws : List (List Nat)) (r : Nat) : List Nat :=
  ((ws.drop (4 * r)).take 4).flatten

/-- AES InvShiftRows on a column-major flat 16-byte state. -/
def invShiftRows (s : List Nat) : List Nat :=
  (List.range 16).map (fun i =>
    let r := i % 4
    let c := i / 4
    s.getD (r + 4 * ((c + 4 - r) % 4)) 0)

/-- AES InvSubBytes. -/
def invSubBytes (s : List Nat) : List Nat :=
  s.map (fun b => invSbox.getD b 0)

/-- AES InvMixColumns on one 4-byte column. -/
def invMixColumn (col : List Nat) : List Nat :=
  let a := col.getD 0 0
  let b := col.getD 1 0
  let c := col.getD 2 0
  let d := col.getD 3 0
  [gmul a 14 ^^^ gmul b 11 ^^^ gmul c 13 ^^^ gmul d 9,
   gmul a 9 ^^^ gmul b 14 ^^^ gmul c 11 ^^^ gmul d 13,
   gmul a 13 ^^^ gmul b 9 ^^^ gmul c 14 ^^^ gmul d 11,
   gmul a 11 ^^^ gmul b 13 ^^^ gmul c 9 ^^^ gmul d 14]

/-- AES InvMixColumns on the whole state. -/
def invMixColumns (s : List Nat) : List Nat :=
  ((chunksOf 4 s).map invMixColumn).flatten

/-- One middle round of the AES-128 inverse cipher. -/
def aesDecRound (ws : List (List Nat)) (s : List Nat) (r : Nat) : List Nat :=
  invMixColumns (xorBytes (invSubBytes (invShiftRows s)) (roundKey ws r))

/-- AES-128 decryption of a single 16-byte block. -/
def aesDecryptBlock (key block : List Nat) : List Nat :=
  let ws := keySchedule key
  let s := xorBytes block (roundKey ws 10)
  let s := (List.range 9).foldl (fun s j => aesDecRound ws s (9 - j)) s
  xorBytes (invSubBytes (invShiftRows s)) (roundKey ws 0)

/-- CBC chaining over already-split ciphertext blocks. -/
def cbcDecryptBlocks (key : List Nat) : List Nat → List (List Nat) → List Nat
  | _, [] => []
  | prev, c :: cs => xorBytes (aesDecryptBlock key c) prev ++
      cbcDecryptBlocks key c cs

/-- AES-128-CBC decryption; `none` models the ValueError the library
raises when the ciphertext is not a multiple of the 16-byte block. -/
def aesCbcDecrypt (key iv ct : List Nat) : Option (List Nat) :=
  if ct.length % 16 == 0 then
    some (cbcDecryptBlocks key iv (chunksOf 16 ct))
  else none

/-- PKCS#7 unpadding as `Cryptodome.Util.Padding.unpad` with block
size 16; `none` models each of its ValueError conditions. -/
def pkcs7Unpad (data : List Nat) : Option (List Nat) :=
  if data.length == 0 then none
  else if data.length % 16 != 0 then none
  else
    let n := data.getLastD 0
    if n == 0 || n > 16 then none
    else if (data.drop (data.length - n)).all (fun b => b == n) then
      some (data.take (data.length - n))
    else none

example :
    aesDecryptBlock
      [0, 1, 2, 3, 4, 5, 6, 7, 8, 9, 10, 11, 12, 13, 14, 15]
      [105, 196, 224, 216, 106, 123, 4, 48, 216, 205, 183, 128, 112, 180,
       197, 90] =
    [0, 17, 34, 51, 68, 85, 102, 119, 136, 153, 170, 187, 204, 221, 238,
     255] := by
  decide

/-- The base64 alphabet. -/
def base64Chars : List Char :=
  "ABCDEFGHIJKLMNOPQRSTUVWXYZabcdefghijklmnopqrstuvwxyz0123456789+/".data

/-- Base64 rendering of one group of at most three bytes. -/
def b64Chunk : List Nat → List Char
  | [a] =>
    [base64Chars.getD (a / 4) 'A', base64Chars.getD (a % 4 * 16) 'A',
     '=', '=']
  | [a, b] =>
    [base64Chars.getD (a / 4) 'A', base64Chars.getD (a % 4 * 16 + b / 16) 'A',
     base64Chars.getD (b % 16 * 4) 'A', '=']
  | [a, b, c] =>
    [base64Chars.getD (a / 4) 'A', base64Chars.getD (a % 4 * 16 + b / 16) 'A',
     base64Chars.getD (b % 16 * 4 + c / 64) 'A', base64Chars.getD (c % 64) 'A']
  | _ => []

/-- Base64 encoding of a byte string as text, modelling Python
`base64.b64encode(...)` decoded as utf8. -/
def b64Encode (bs : List Nat) : String :=
  ⟨((chunksOf 3 bs).map b64Chunk).flatten⟩

/-- Typed model of the failure taxonomy; in the source all three are
raised as exceptions (ValueError for the first two, an HTTP status
error for the third). -/
inductive ClientError
  | malformedEnvelope
  | decryptionError
  | requestFailed (status : Nat) (body : String)
deriving DecidableEq, Repr

/-- The exact exception message the source raises for the two
ValueError cases. -/
def ClientError.valueErrorMessage : ClientError → Option String
  | .malformedEnvelope => some "Error decoding response hex"
  | .decryptionError => some "Error decrypting response"
  | .requestFailed _ _ => none

instance {ε α : Type} [DecidableEq ε] [DecidableEq α] :
    DecidableEq (Except ε α) := fun x y =>
  match x, y with
  | .ok a, .ok b =>
    if h : a = b then .isTrue (congrArg Except.ok h)
    else .isFalse (fun hh => h (Except.ok.inj hh))
  | .error a, .error b =>
    if h : a = b then .isTrue (congrArg Except.error h)
    else .isFalse (fun hh => h (Except.error.inj hh))
  | .ok _, .error _ => .isFalse (fun hh => Except.noConfusion hh)
  | .error _, .ok _ => .isFalse (fun hh => Except.noConfusion hh)

/-- Result of `decrypt_response` up to JSON parsing: the decrypted
plaintext bytes or a typed error, together with the lines written to
the error log. -/
structure DecryptOutcome where
  result : Except ClientError (List Nat)
  logLines : List String
deriving DecidableEq, Repr

/-- The error-log lines of client.py lines 277 to 283: a fixed banner,
then the base64 ciphertext, then the base64 key interpolated into the
final message. -/
def decryptionFailureLogs (key ct : List Nat) : List String :=
  ["Error decrypting response", "Ciphertext:", b64Encode ct,
   "Tried decrypting with key " ++ b64Encode key]

/-- The `decrypt_response` method of client.py lines 260 to 287, up to
the final `json.loads` (which is applied to the returned plaintext):
AES-CBC decryption under an all-zero 16-byte IV followed by PKCS#7
unpadding; any ValueError inside the try block is logged and re-raised
as `ValueError` with message `Error decrypting response`.  Faithful for
the 16-byte keys the client uses (AES-128). -/
def decryptResponseBytes (key ct : List Nat) : DecryptOutcome :=
  match (aesCbcDecrypt key (List.replicate 16 0) ct).bind pkcs7Unpad with
  | some pt => ⟨.ok pt, []⟩
  | none => ⟨.error .decryptionError, decryptionFailureLogs key ct⟩

/-- Value of one hexadecimal digit character. -/
def hexDigitVal (c : Char) : Option Nat :=
  if '0' ≤ c ∧ c ≤ '9' then some (c.toNat - 48)
  else if 'a' ≤ c ∧ c ≤ 'f' then some (c.toNat - 87)
  else if 'A' ≤ c ∧ c ≤ 'F' then some (c.toNat - 55)
  else none

/-- Loop of `pyFromHex`: spaces are skipped between byte pairs, then
two hex digits form one byte; anything else fails. -/
def pyFromHexAux : List Char → Option (List Nat)
  | [] => some []
  | c1 :: rest =>
    if c1 = ' ' then pyFromHexAux rest
    else
      match rest with
      | [] => none
      | c2 :: rest2 =>
        match hexDigitVal c1, hexDigitVal c2, pyFromHexAux rest2 with
        | some h, some l, some bs => some ((h * 16 + l) :: bs)
        | _, _, _ => none

/-- Python `bytes.fromhex`: pairs of hex digits with spaces allowed
between pairs; odd length or a non-hex character raises ValueError,
modelled as `none`. -/
def pyFromHex (s : String) : Option (List Nat) :=
  pyFromHexAux s.data

/-- The `__get_ciphertext` method of client.py lines 336 to 351:
hex-decodes the response text, logging and raising ValueError with
message `Error decoding response hex` when decoding fails. -/
def getCiphertext (text : String) : Except ClientError (List Nat) :=
  match pyFromHex text with
  | some bs => .ok bs
  | none => .error .malformedEnvelope

/-- A transport response: HTTP status code and body text. -/
structure HttpResponse where
  status : Nat
  text : String
deriving DecidableEq, Repr

/-- Whether `requests.Response.raise_for_status` raises for this
status (client and server error codes). -/
def raisesForStatus (status : Nat) : Bool :=
  400 ≤ status && status < 600

/-- The response-processing part of `load_playlist` (client.py lines
82 to 85) applied to the response text: `__get_ciphertext` first, then
`decrypt_response` with the session key.  The boolean records whether
a decryption was attempted.  The plaintext result is what the final
`json.loads` inside `decrypt_response` is applied to. -/
def loadPlaylistRun (sessionKey : List Nat) (text : String) :
    Except ClientError (List Nat) × Bool :=
  match pyFromHex text with
  | none => (.error .malformedEnvelope, false)
  | some ct => ((decryptResponseBytes sessionKey ct).result, true)

/-- The legacy `load_playlist` pipeline on a full transport response:
the source reads only `resp.text` and performs no status check. -/
def loadPlaylistLegacy (sessionKey : List Nat) (resp : HttpResponse) :
    Except ClientError (List Nat) × Bool :=
  loadPlaylistRun sessionKey resp.text

/-- The response-processing part of `load_playlist_six` (client.py
lines 256 to 258): `raise_for_status`, then the body text is handed
directly to `json.loads` with no hex decoding and no decryption. -/
def loadPlaylistSixRun (resp : HttpResponse) : Except ClientError String :=
  if raisesForStatus resp.status then
    .error (.requestFailed resp.status resp.text)
  else .ok resp.text

/-- The session-key derivation of `get_session_key` (client.py lines
329 to 333): byte-wise XOR of the device key and the server key
material, iterating over `zip` of the two byte strings. -/
def deriveSessionKey (deviceKey serverKey : List Nat) : List Nat :=
  xorBytes deviceKey serverKey

example :
    decryptResponseBytes
      [0, 1, 2, 3, 4, 5, 6, 7, 8, 9, 10, 11, 12, 13, 14, 15]
      [23, 111, 63, 49, 149, 108, 217, 216, 152, 231, 16, 46, 108, 178,
       249, 220] =
    ⟨.ok [97, 98, 99, 100, 101, 102, 103, 104, 105, 106, 107, 108, 109,
          110, 111], []⟩ := by
  decide

example :
    (decryptResponseBytes
      [0, 1, 2, 3, 4, 5, 6, 7, 8, 9, 10, 11, 12, 13, 14, 15]
      [105, 196, 224, 216, 106, 123, 4, 48, 216, 205, 183, 128, 112, 180,
       197, 90]).logLines =
    ["Error decrypting response", "Ciphertext:", "acTg2Gp7BDDYzbeAcLTFWg==",
     "Tried decrypting with key AAECAwQFBgcICQoLDA0ODw=="] := by
  decide

example : pyFromHex "zz" = none := by decide

example : pyFromHex "ff00" = some [255, 0] := by decide

/-- JSON-like values, with objects as insertion-ordered association
lists, modelling Python dicts / lists / scalars in request payloads. -/
inductive JValue
  | str (s : String)
  | num (n : Int)
  | bool (b : Bool)
  | null
  | arr (xs : List JValue)
  | obj (fields : List (String × JValue))

/-- Whether a value is an object (a Python dict). -/
def JValue.isObj : JValue → Bool
  | .obj _ => true
  | _ => false

/-- Ordered-dict lookup. -/
def lookupField : List (String × JValue) → String → Option JValue
  | [], _ => none
  | (k', v) :: t, k => if k' = k then some v else lookupField t k

/-- Python dict assignment `d[k] = v` on an insertion-ordered
association list: replaces the value in place if the key exists,
otherwise appends the new key at the end. -/
def setField : List (String × JValue) → String → JValue → List (String × JValue)
  | [], k, v => [(k, v)]
  | (k', v') :: t, k, v =>
    if k' = k then (k', v) :: t else (k', v') :: setField t k v

/-- Python `dict.update`: assigns each key of `extra` in order. -/
def updateFields (base : List (String × JValue)) :
    List (String × JValue) → List (String × JValue)
  | [] => base
  | (k, v) :: rest => updateFields (setField base k v) rest

mutual

/-- Modelled from the spec: deep merge of one value over another (the
spec's "deep-merged over the defaults"; the source itself only calls
the shallow `dict.update`).  When both sides are objects the fields
are merged recursively; otherwise the new value wins. -/
def deepMerge : JValue → JValue → JValue
  | JValue.obj a, JValue.obj b => JValue.obj (deepMergeFields a b)
  | _, b => b
termination_by _ y => (sizeOf y, 0)

/-- Modelled from the spec: deep merge of the fields of `extra` over
the fields of `base`, assigning each key of `extra` in order. -/
def deepMergeFields (base : List (String × JValue)) :
    List (String × JValue) → List (String × JValue)
  | [] => base
  | (k, v) :: rest => deepMergeFields (setMergedField base k v) rest
termination_by l => (sizeOf l, 0)

/-- Modelled from the spec: single deep-merging assignment of key `k`
to value `v`. -/
def setMergedField : List (String × JValue) → String → JValue →
    List (String × JValue)
  | [], k, v => [(k, v)]
  | (k', v') :: t, k, v =>
    if k' = k then (k', deepMerge v' v) :: t
    else (k', v') :: setMergedField t k v
termination_by b _ v => (sizeOf v, 1 + sizeOf b)

end

/-- Lookup of a path of keys through nested objects. -/
def getPath : JValue → List String → Option JValue
  | v, [] => some v
  | .obj fs, k :: ks =>
    match lookupField fs k with
    | some v => getPath v ks
    | none => none
  | _, _ :: _ => none

/-- The constant `device_identifier` field value of the request
builders: the uppercase hex MD5 digest of the empty byte string. -/
def deviceIdentifier : String :=
  ⟨(md5Digest []).flatMap (fun b => (byteToHex b).map Char.toUpper)⟩

example : deviceIdentifier = "D41D8CD98F00B204E9800998ECF8427E" := by decide

/-- The default legacy playlist parameters of `load_playlist`
(client.py lines 72 to 79); `deviceCodeNum` stands for
`int(device_code)` and `rv` for the fresh random value. -/
def legacyDefaults (deviceCodeNum : Int) (videoId : String) (rv : Int)
    (kv : String) : List (String × JValue) :=
  [("device_identifier", .str deviceIdentifier),
   ("deejay_device_id", .num deviceCodeNum),
   ("version", .num 1),
   ("content_eab_id", .str videoId),
   ("rv", .num rv),
   ("kv", .str kv)]

/-- The legacy playlist request payload (client.py line 80):
`params.update(self.extra_playlist_params)` over the defaults. -/
def legacyParams (deviceCodeNum : Int) (videoId : String) (rv : Int)
    (kv : String) (extra : List (String × JValue)) :
    List (String × JValue) :=
  updateFields (legacyDefaults deviceCodeNum videoId rv kv) extra

/-- The audio codec candidate list built by hulu.py lines 188 to 190:
AAC always, EC3 appended unless the force-2ch flag is set. -/
def audioCodecs (force2ch : Bool) : List JValue :=
  [.obj [("type", .str "AAC")]] ++
    (if force2ch then [] else [.obj [("type", .str "EC3")]])

/-- The `extra_playlist_params` mapping hulu.py lines 193 to 201 pass
to the client. -/
def extraPlaylistParams (force2ch : Bool) : List (String × JValue) :=
  [("playback", .obj
    [("audio", .obj
      [("codecs", .obj
        [("values", .arr (audioCodecs force2ch))])])])]

example :
    getPath (.obj (legacyParams 830 "vid" 500000 "kv0"
        (extraPlaylistParams true)))
      ["playback", "audio", "codecs", "values"] =
    some (.arr [.obj [("type", .str "AAC")]]) := rfl

/-- Dict read `j[k]`, defaulting to null when absent (the keys read by
the source are always present). -/
def objGet (j : JValue) (k : String) : JValue :=
  match j with
  | .obj fs => (lookupField fs k).getD .null
  | _ => .null

/-- Dict assignment `j[k] = v` on an object value. -/
def objSetKey (j : JValue) (k : String) (v : JValue) : JValue :=
  match j with
  | .obj fs => .obj (setField fs k v)
  | other => other

/-- The audio block shared by both `load_playlist_six` parameter sets
(client.py lines 126 to 134): EC3 and AAC candidates, selection mode
ALL. -/
def sixAudioBlock : JValue :=
  .obj [("codecs", .obj
    [("values", .arr [.obj [("type", .str "EC3")],
                      .obj [("type", .str "AAC")]]),
     ("selection_mode", .str "ALL")])]

/-- The DRM block shared by both parameter sets (client.py lines 135
to 146): Widevine Modular L3 and PlayReady V2 SL2000, selection mode
ALL. -/
def sixDrmBlock : JValue :=
  .obj [("values", .arr
    [.obj [("type", .str "WIDEVINE"), ("version", .str "MODULAR"),
           ("security_level", .str "L3")],
     .obj [("type", .str "PLAYREADY"), ("version", .str "V2"),
           ("security_level", .str "SL2000")]]),
    ("selection_mode", .str "ALL")]

/-- The manifest block shared by both parameter sets (client.py lines
147 to 156). -/
def sixManifestBlock : JValue :=
  .obj [("type", .str "DASH"), ("https", .bool true),
    ("multiple_cdns", .bool true), ("patch_updates", .bool true),
    ("hulu_types", .bool true), ("live_dai", .bool true),
    ("secondary_audio", .bool true), ("live_fragment_delay", .num 3)]

/-- The segments block shared by both parameter sets (client.py lines
158 to 168): fragmented MP4 with CENC encryption, selection mode
ONE. -/
def sixSegmentsBlock : JValue :=
  .obj [("values", .arr
    [.obj [("type", .str "FMP4"),
           ("encryption", .obj [("mode", .str "CENC"),
                                ("type", .str "CENC")]),
           ("https", .bool true)]]),
    ("selection_mode", .str "ONE")]

/-- The HEVC video block (client.py lines 112 to 125): H265 Main 10,
3840 by 2160, 60 fps, level 5.1, main tier. -/
def sixVideoHevc : JValue :=
  .obj [("codecs", .obj
    [("selection_mode", .str "ALL"),
     ("values", .arr [.obj
       [("type", .str "H265"), ("profile", .str "MAIN_10"),
        ("width", .num 3840), ("height", .num 2160),
        ("framerate", .num 60), ("level", .str "5.1"),
        ("tier", .str "MAIN")]])])]

/-- The AVC video block (client.py lines 192 to 203): H264 High,
1920 by 1080, level 4.1. -/
def sixVideoAvc : JValue :=
  .obj [("codecs", .obj
    [("selection_mode", .str "ALL"),
     ("values", .arr [.obj
       [("width", .num 1920), ("level", .str "4.1"),
        ("height", .num 1080), ("profile", .str "HIGH"),
        ("type", .str "H264")]])])]

/-- A full `load_playlist_six` parameter dictionary (client.py lines
91 to 170 and 171 to 248) around the given video block; the two
literal dictionaries differ only in that block. -/
def sixParamsWith (video : JValue) (videoId : String) (deviceId rv : Int)
    (kv : String) : JValue :=
  .obj [("device_identifier", .str deviceIdentifier),
    ("deejay_device_id", .num deviceId),
    ("version", .num 1),
    ("all_cdn", .bool true),
    ("content_eab_id", .str videoId),
    ("region", .str "US"),
    ("xlink_support", .bool false),
    ("device_ad_id", .str "5DFEB7AD-3651-8C6A-8302-56EC694FD9E8"),
    ("limit_ad_tracking", .bool false),
    ("ignore_kids_block", .bool false),
    ("guid", .str "0BFDBD0D05D1DF844899A7D608B95BBE"),
    ("rv", .num rv),
    ("kv", .str kv),
    ("cp_session_id", .str "4408CF3E-D697-B2EA-A70A-4769B8D072F1"),
    ("unencrypted", .bool true),
    ("network_mode", .str "wifi"),
    ("interface_version", .str "1.3.0-alpha.1"),
    ("play_intent", .str "resume"),
    ("playback", .obj
      [("version", .num 2),
       ("video", video),
       ("audio", sixAudioBlock),
       ("drm", sixDrmBlock),
       ("manifest", sixManifestBlock),
       ("trusted_execution_environment", .bool true),
       ("segments", sixSegmentsBlock)])]

/-- The HDR mutation of client.py lines 253 to 255: adds
`dynamic_range = DOLBY_VISION` under the playback video config and
`multi_key = true` under the playback DRM config. -/
def sixApplyHdr (params : JValue) : JValue :=
  let pb := objGet params "playback"
  let pb := objSetKey pb "video"
    (objSetKey (objGet pb "video") "dynamic_range" (.str "DOLBY_VISION"))
  let pb := objSetKey pb "drm"
    (objSetKey (objGet pb "drm") "multi_key" (.bool true))
  objSetKey params "playback" pb

/-- The parameter dictionary `load_playlist_six` sends (client.py
lines 249 to 255): the HEVC or AVC literal selected by `hevc`, with
the HDR mutation applied when `hdr` is set. -/
def loadPlaylistSixParams (videoId : String) (deviceId rv : Int)
    (kv : String) (hdr hevc : Bool) : JValue :=
  let params :=
    if hevc then sixParamsWith sixVideoHevc videoId deviceId rv kv
    else sixParamsWith sixVideoAvc videoId deviceId rv kv
  if hdr then sixApplyHdr params else params

example :
    getPath (loadPlaylistSixParams "vid" 210 500000 "kv0" true true)
      ["playback", "video", "dynamic_range"] =
    some (.str "DOLBY_VISION") := rfl

example :
    getPath (loadPlaylistSixParams "vid" 210 500000 "kv0" true true)
      ["playback", "drm", "multi_key"] = some (.bool true) := rfl

example :
    getPath (loadPlaylistSixParams "vid" 210 500000 "kv0" false false)
      ["playback", "video", "dynamic_range"] = none := rfl

theorem getD_xorBytes (a : List Nat) (b : List Nat) (i : Nat)
    (ha : i < a.length) (hb : i < b.length) :
    (xorBytes a b).getD i 0 = a.getD i 0 ^^^ b.getD i 0 := by
  induction a generalizing b i with
  | nil => simp at ha
  | cons x xs ih =>
    cases b with
    | nil => simp at hb
    | cons y ys =>
      cases i with
      | zero => rfl
      | succ n =>
        simpa [xorBytes] using
          ih ys n (by simpa using ha) (by simpa using hb)

theorem xorBytes_comm (a : List Nat) (b : List Nat) :
    xorBytes a b = xorBytes b a := by
  induction a generalizing b with
  | nil => cases b <;> rfl
  | cons x xs ih =>
    cases b with
    | nil => rfl
    | cons y ys =>
      show (x ^^^ y) :: xorBytes xs ys = (y ^^^ x) :: xorBytes ys xs
      rw [Nat.xor_comm, ih ys]

theorem append_comma_one (r : String) :
    "," ++ ("1" ++ ("," ++ r)) = ",1," ++ r := by
  rw [← String.append_assoc, ← String.append_assoc]
  have h1 : ("," ++ "1" ++ ",") = ",1," := by decide
  rw [h1]

/-- C1: for 16-byte device key and 16-byte decoded server key
material, the session key is the byte-wise XOR of the two, pairwise
per index; with a zero device key and 0xff key material the derived
key is 16 0xff bytes. -/
theorem claim_C1 (dk km : List Nat) (hdk : dk.length = 16)
    (hkm : km.length = 16) :
    (∀ i, i < 16 →
      (deriveSessionKey dk km).getD i 0 = dk.getD i 0 ^^^ km.getD i 0)
    ∧ deriveSessionKey (List.replicate 16 0)
        ((pyFromHex "ffffffffffffffffffffffffffffffff").getD []) =
      List.replicate 16 255 := by
  refine ⟨fun i hi => ?_, by decide⟩
  exact getD_xorBytes dk km i (by omega) (by omega)

theorem claim_C1_witness :
    (deriveSessionKey (List.replicate 16 0) (List.replicate 16 255)).getD 0 0
      = (List.replicate 16 0 : List Nat).getD 0 0 ^^^
        (List.replicate 16 255 : List Nat).getD 0 0 :=
  (claim_C1 (List.replicate 16 0) (List.replicate 16 255)
    (by decide) (by decide)).1 0 (by decide)

/-- C2: the handshake nonce is the MD5 hex digest of the UTF-8 encoded
comma-separated template of device key hex, device code, the fixed
version 1 and the random value; for device code 830, a zero device key
and random value 500000 it equals the reference digest. -/
theorem claim_C2 (dk : List Nat) (code : String) (R : Nat) :
    handshakeNonce dk code R =
      md5HexDigest (utf8Encode
        (hexlify dk ++ "," ++ code ++ ",1," ++ Nat.repr R))
    ∧ handshakeNonce (List.replicate 16 0) "830" 500000 =
      "4db89dc6d802b91b9e0aa8fa9446893c" := by
  refine ⟨?_, by decide⟩
  show md5HexDigest (utf8Encode
    (hexlify dk ++ "," ++ code ++ "," ++ "1" ++ "," ++ Nat.repr R)) = _
  rw [String.append_assoc, String.append_assoc, String.append_assoc,
    append_comma_one, ← String.append_assoc]

/-- C9: the session-key derivation is commutative in its two byte
string arguments. -/
theorem claim_C9 (a b : List Nat) (_h : a.length = b.length) :
    deriveSessionKey a b = deriveSessionKey b a :=
  xorBytes_comm a b

theorem claim_C9_witness :
    deriveSessionKey [1, 2, 3] [255, 0, 9] =
      deriveSessionKey [255, 0, 9] [1, 2, 3] :=
  claim_C9 [1, 2, 3] [255, 0, 9] (by decide)

/-- C10: for inputs of any lengths, the derived session key has the
length of the shorter input: a mismatched server key is silently
truncated to the common prefix length instead of being rejected. -/
theorem claim_C10 (dk km : List Nat) :
    (deriveSessionKey dk km).length = min dk.length km.length
    ∧ (deriveSessionKey (List.replicate 16 0)
        (List.replicate 8 255)).length = 8
    ∧ (deriveSessionKey (List.replicate 16 0)
        (List.replicate 24 255)).length = 16 := by
  refine ⟨?_, by decide, by decide⟩
  simp [deriveSessionKey, xorBytes]

/-- C3: a response text that is not valid even-length hex makes the
envelope decode step fail with exactly the MalformedEnvelope error,
and in the legacy playlist path the failure occurs with no decryption
attempted. -/
theorem claim_C3 (text : String) (key : List Nat)
    (h : pyFromHex text = none) :
    getCiphertext text = .error .malformedEnvelope
    ∧ ClientError.malformedEnvelope.valueErrorMessage =
      some "Error decoding response hex"
    ∧ loadPlaylistRun key text = (.error .malformedEnvelope, false) := by
  refine ⟨?_, rfl, ?_⟩
  · simp [getCiphertext, h]
  · simp [loadPlaylistRun, h]

theorem claim_C3_witness :
    getCiphertext "zz" = .error .malformedEnvelope
    ∧ ClientError.malformedEnvelope.valueErrorMessage =
      some "Error decoding response hex"
    ∧ loadPlaylistRun (List.replicate 16 0) "zz" =
      (.error .malformedEnvelope, false) :=
  claim_C3 "zz" (List.replicate 16 0) (by decide)

/-- C4: `decrypt_response` is AES-CBC decryption with an all-zero
16-byte IV followed by standard PKCS#7 unpadding; whenever padding
removal (or block decryption) fails it yields exactly the
DecryptionError error and its error log holds the base64 ciphertext
and base64 key, and on success nothing is logged. -/
theorem claim_C4 (key ct : List Nat) (_hk : key.length = 16) :
    (decryptResponseBytes key ct).result =
      (match (aesCbcDecrypt key (List.replicate 16 0) ct).bind pkcs7Unpad with
       | some pt => .ok pt
       | none => .error .decryptionError)
    ∧ ((aesCbcDecrypt key (List.replicate 16 0) ct).bind pkcs7Unpad = none →
        (decryptResponseBytes key ct).result = .error .decryptionError
        ∧ (decryptResponseBytes key ct).logLines =
          ["Error decrypting response", "Ciphertext:", b64Encode ct,
           "Tried decrypting with key " ++ b64Encode key])
    ∧ (∀ pt,
        (aesCbcDecrypt key (List.replicate 16 0) ct).bind pkcs7Unpad =
          some pt →
        (decryptResponseBytes key ct).result = .ok pt
        ∧ (decryptResponseBytes key ct).logLines = []) := by
  refine ⟨?_, fun h => ?_, fun pt h => ?_⟩
  · unfold decryptResponseBytes
    cases (aesCbcDecrypt key (List.replicate 16 0) ct).bind pkcs7Unpad <;> rfl
  · unfold decryptResponseBytes
    rw [h]
    exact ⟨rfl, rfl⟩
  · unfold decryptResponseBytes
    rw [h]
    exact ⟨rfl, rfl⟩

theorem claim_C4_witness :
    (decryptResponseBytes [0, 1, 2, 3, 4, 5, 6, 7, 8, 9, 10, 11, 12, 13, 14,
        15]
      [105, 196, 224, 216, 106, 123, 4, 48, 216, 205, 183, 128, 112, 180,
       197, 90]).result = .error .decryptionError
    ∧ (decryptResponseBytes [0, 1, 2, 3, 4, 5, 6, 7, 8, 9, 10, 11, 12, 13,
        14, 15]
      [105, 196, 224, 216, 106, 123, 4, 48, 216, 205, 183, 128, 112, 180,
       197, 90]).logLines =
      ["Error decrypting response", "Ciphertext:", "acTg2Gp7BDDYzbeAcLTFWg==",
       "Tried decrypting with key AAECAwQFBgcICQoLDA0ODw=="] := by
  have h := (claim_C4
    [0, 1, 2, 3, 4, 5, 6, 7, 8, 9, 10, 11, 12, 13, 14, 15]
    [105, 196, 224, 216, 106, 123, 4, 48, 216, 205, 183, 128, 112, 180,
     197, 90] (by decide)).2.1 (by decide)
  exact ⟨h.1, h.2.trans (by decide)⟩

/-- C7 counterexample: the legacy `load_playlist` path, given a
response with server-error status 500 and body zz, fails with
MalformedEnvelope and not with RequestFailed: the legacy path performs
no transport status check, contradicting the claim that both playlist
paths fail with RequestFailed on a non-success status. -/
theorem claim_C7_counterexample :
    loadPlaylistLegacy (List.replicate 16 0) ⟨500, "zz"⟩ =
      (.error .malformedEnvelope, false)
    ∧ ClientError.malformedEnvelope ≠ ClientError.requestFailed 500 "zz" := by
  exact ⟨by decide, by decide⟩

/-- C7 as amended: only `load_playlist_six` checks the transport
status: a client- or server-error status fails with RequestFailed
carrying the status and body and no playlist data; the legacy
`load_playlist` performs no status check and its outcome depends only
on the response text. -/
theorem claim_C7 (resp : HttpResponse) (key : List Nat)
    (h : raisesForStatus resp.status = true) :
    loadPlaylistSixRun resp = .error (.requestFailed resp.status resp.text)
    ∧ loadPlaylistLegacy key resp = loadPlaylistRun key resp.text := by
  exact ⟨by simp [loadPlaylistSixRun, h], rfl⟩

theorem claim_C7_witness :
    loadPlaylistSixRun ⟨500, "oops"⟩ =
      .error (.requestFailed 500 "oops")
    ∧ loadPlaylistLegacy (List.replicate 16 0) ⟨500, "oops"⟩ =
      loadPlaylistRun (List.replicate 16 0) "oops" :=
  claim_C7 ⟨500, "oops"⟩ (List.replicate 16 0) (by decide)

/-- C8: on a successful response pair, the legacy playlist response is
obtained by hex-decoding the body and decrypting the envelope with the
session key, while the versioned-six response is the plaintext body
handed over directly with no hex decoding and no decryption. -/
theorem claim_C8 (key : List Nat) (resp : HttpResponse) (ct : List Nat)
    (hs : raisesForStatus resp.status = false)
    (hct : pyFromHex resp.text = some ct) :
    loadPlaylistLegacy key resp = ((decryptResponseBytes key ct).result, true)
    ∧ loadPlaylistSixRun resp = .ok resp.text := by
  exact ⟨by simp [loadPlaylistLegacy, loadPlaylistRun, hct],
    by simp [loadPlaylistSixRun, hs]⟩

theorem deepMerge_of_not_obj (v' v : JValue) (h : v'.isObj = false) :
    deepMerge v' v = v := by
  cases v' <;> cases v <;> simp_all [JValue.isObj, deepMerge]

theorem lookupField_setField_ne (base : List (String × JValue))
    (k k' : String) (v : JValue) (h : k' ≠ k) :
    lookupField (setField base k v) k' = lookupField base k' := by
  induction base with
  | nil => simp [setField, lookupField, Ne.symm h]
  | cons p t ih =>
    obtain ⟨k2, v2⟩ := p
    by_cases h2 : k2 = k
    · subst h2
      simp [setField, lookupField, Ne.symm h]
    · by_cases h3 : k2 = k'
      · simp [setField, lookupField, h2, h3, h]
      · simp [setField, lookupField, h2, h3, ih]

theorem setMergedField_eq_setField (base : List (String × JValue))
    (k : String) (v : JValue)
    (h : ∀ u, lookupField base k = some u → u.isObj = false) :
    setMergedField base k v = setField base k v := by
  induction base with
  | nil => simp [setMergedField, setField]
  | cons p t ih =>
    obtain ⟨k2, v2⟩ := p
    by_cases h2 : k2 = k
    · have hv2 : v2.isObj = false := h v2 (by simp [lookupField, h2])
      simp [setMergedField, setField, h2, deepMerge_of_not_obj v2 v hv2]
    · simp only [setMergedField, setField, if_neg h2]
      rw [ih (fun u hu => h u (by simpa [lookupField, h2] using hu))]

theorem updateFields_eq_deepMergeFields (extra : List (String × JValue))
    (base : List (String × JValue))
    (hnd : (extra.map Prod.fst).Nodup)
    (h : ∀ p ∈ extra, ∀ u, lookupField base p.1 = some u →
      u.isObj = false) :
    updateFields base extra = deepMergeFields base extra := by
  induction extra generalizing base with
  | nil => simp [updateFields, deepMergeFields]
  | cons p rest ih =>
    obtain ⟨k, v⟩ := p
    have hnd2 : k ∉ rest.map Prod.fst ∧ (rest.map Prod.fst).Nodup :=
      List.nodup_cons.mp (by simpa using hnd)
    have hmerge : setMergedField base k v = setField base k v :=
      setMergedField_eq_setField base k v
        (fun u hu => h (k, v) (List.mem_cons_self _ _) u hu)
    show updateFields (setField base k v) rest = deepMergeFields base _
    rw [show deepMergeFields base ((k, v) :: rest) =
      deepMergeFields (setMergedField base k v) rest from by
        simp [deepMergeFields], hmerge]
    apply ih _ hnd2.2
    intro q hq u hu
    have hqk : q.1 ≠ k := by
      intro hh
      exact hnd2.1 (hh ▸ List.mem_map_of_mem Prod.fst hq)
    rw [lookupField_setField_ne base k q.1 v hqk] at hu
    exact h q (List.mem_cons_of_mem _ hq) u hu

theorem legacyDefaults_flat (dc : Int) (vid : String) (rv : Int)
    (kv : String) (k : String) (u : JValue)
    (h : lookupField (legacyDefaults dc vid rv kv) k = some u) :
    u.isObj = false := by
  simp only [legacyDefaults, lookupField] at h
  repeat' split at h
  all_goals first
    | exact Option.noConfusion h
    | (injection h with h2; subst h2; rfl)

/-- C5: the legacy playlist payload equals the defaults with the extra
parameters deep-merged over them (the shallow `dict.update` the source
performs coincides with a deep merge because no default value is a
dict); with force-2ch set the payload audio codec candidate list is
AAC only and never contains EC3, without it the list holds both AAC
and EC3. -/
theorem claim_C5 (dc : Int) (vid : String) (rv : Int) (kv : String)
    (extra : List (String × JValue))
    (hnd : (extra.map Prod.fst).Nodup) :
    legacyParams dc vid rv kv extra =
      deepMergeFields (legacyDefaults dc vid rv kv) extra
    ∧ getPath (.obj (legacyParams dc vid rv kv (extraPlaylistParams true)))
        ["playback", "audio", "codecs", "values"] =
      some (.arr [.obj [("type", .str "AAC")]])
    ∧ JValue.obj [("type", .str "EC3")] ∉ audioCodecs true
    ∧ getPath (.obj (legacyParams dc vid rv kv (extraPlaylistParams false)))
        ["playback", "audio", "codecs", "values"] =
      some (.arr [.obj [("type", .str "AAC")],
                  .obj [("type", .str "EC3")]])
    ∧ JValue.obj [("type", .str "AAC")] ∈ audioCodecs false
    ∧ JValue.obj [("type", .str "EC3")] ∈ audioCodecs false := by
  refine ⟨updateFields_eq_deepMergeFields extra _ hnd
      (fun p _ u hu => legacyDefaults_flat dc vid rv kv p.1 u hu),
    rfl, ?_, rfl, ?_, ?_⟩
  · intro hmem
    simp [audioCodecs] at hmem
  · simp [audioCodecs]
  · simp [audioCodecs]

theorem claim_C5_witness :
    legacyParams 830 "vid" 500000 "kv0" (extraPlaylistParams true) =
      deepMergeFields (legacyDefaults 830 "vid" 500000 "kv0")
        (extraPlaylistParams true) :=
  (claim_C5 830 "vid" 500000 "kv0" (extraPlaylistParams true)
    (by decide)).1

/-- C6: with hevc and hdr both set, the six-endpoint payload holds
dynamic_range DOLBY_VISION under the video config and multi_key true
under the DRM config; with hevc unset the single video codec entry is
H264 with profile HIGH; with hdr unset neither dynamic_range nor
multi_key is present. -/
theorem claim_C6 (vid : String) (did rv : Int) (kv : String) :
    getPath (loadPlaylistSixParams vid did rv kv true true)
      ["playback", "video", "dynamic_range"] = some (.str "DOLBY_VISION")
    ∧ getPath (loadPlaylistSixParams vid did rv kv true true)
      ["playback", "drm", "multi_key"] = some (.bool true)
    ∧ (∀ hdr : Bool,
        getPath (loadPlaylistSixParams vid did rv kv hdr false)
          ["playback", "video", "codecs", "values"] =
        some (.arr [.obj [("width", .num 1920), ("level", .str "4.1"),
          ("height", .num 1080), ("profile", .str "HIGH"),
          ("type", .str "H264")]]))
    ∧ (∀ hevc : Bool,
        getPath (loadPlaylistSixParams vid did rv kv false hevc)
          ["playback", "video", "dynamic_range"] = none
        ∧ getPath (loadPlaylistSixParams vid did rv kv false hevc)
          ["playback", "drm", "multi_key"] = none) := by
  refine ⟨rfl, rfl, fun hdr => ?_, fun hevc => ?_⟩
  · cases hdr <;> rfl
  · cases hevc <;> exact ⟨rfl, rfl⟩

theorem claim_C8_witness :
    loadPlaylistLegacy [0, 1, 2, 3, 4, 5, 6, 7, 8, 9, 10, 11, 12, 13, 14, 15]
      ⟨200, "176f3f31956cd9d898e7102e6cb2f9dc"⟩ =
      ((decryptResponseBytes
        [0, 1, 2, 3, 4, 5, 6, 7, 8, 9, 10, 11, 12, 13, 14, 15]
        [23, 111, 63, 49, 149, 108, 217, 216, 152, 231, 16, 46, 108, 178,
         249, 220]).result, true)
    ∧ loadPlaylistSixRun ⟨200, "176f3f31956cd9d898e7102e6cb2f9dc"⟩ =
      .ok "176f3f31956cd9d898e7102e6cb2f9dc" :=
  claim_C8 [0, 1, 2, 3, 4, 5, 6, 7, 8, 9, 10, 11, 12, 13, 14, 15]
    ⟨200, "176f3f31956cd9d898e7102e6cb2f9dc"⟩
    [23, 111, 63, 49, 149, 108, 217, 216, 152, 231, 16, 46, 108, 178,
     249, 220]
    (by decide) (by decide)

example :
    handshakeNonce (List.replicate 16 0) "830" 500000 =
      "4db89dc6d802b91b9e0aa8fa9446893c" := by
  decide

end HuluSpec
